import Mathlib

/-!
# COM proxy registration (nvdaHelper/remote/COMProxyRegistration.cpp)

A shallow embedding of `registerCOMProxy` and `unregisterCOMProxy`.

The two functions are sequences of calls into the operating system.  The
embedding threads an explicit `World` through them:

* `World.psClsid` is the process-wide proxy/stub mapping read by `CoGetPSClsid`
  and written by `CoRegisterPSClsid`;
* `World.trace` is the chronological list of the system calls made, each with
  its arguments and its outcome.

What each system call answers is not decided by the program; it is given by an
`Env`.  The answer of `CoRegisterPSClsid` may depend on everything that happened
before (the trace), so that every pattern of remap and restore failures is an
`Env`.

Conventions: GUIDs, handles, interface pointers and cookies are natural numbers
(only equality and the zero value are ever inspected by the code), `HRESULT` is
an integer and `S_OK = 0`.  A call fails exactly when the test the code makes
on its result says so (`==NULL`, `!`, `!=S_OK`).  Logging (`LOG_ERROR`,
`LOG_INFO`) has no effect on control flow and is not part of the model; names
are modelled as `String`, the UTF-8 to UTF-16 conversion of a name being the
identity on the text; C++ exceptions (allocation, string conversion) are not
modelled.
-/

namespace COMProxyRegistration

/-! ## Basic types -/

abbrev GUID := Nat
abbrev IID := GUID
abbrev CLSID := GUID
abbrev HANDLE := Nat
abbrev HMODULE := Nat
abbrev PUNK := Nat
abbrev DWORD := Nat
abbrev ULONG_PTR := Nat
abbrev HRESULT := Int

/-- The null pointer / null handle. -/
def NULL : Nat := 0

/-- The success code every call of the file is compared with. -/
def S_OK : HRESULT := 0

/-- The all-zero class id, the value of `CLSID clsidBackup={0}`. -/
def CLSID_NULL : CLSID := 0

/-- Flag values of winbase.h used to fill the ACTCTX structure. -/
def ACTCTX_FLAG_RESOURCE_NAME_VALID : Nat := 0x008
def ACTCTX_FLAG_HMODULE_VALID : Nat := 0x080

/-- The fields of the ACTCTX structure that `registerCOMProxy` fills in. -/
structure ACTCTX where
  dwFlags : Nat
  lpResourceName : Nat
  hModule : HMODULE
  deriving DecidableEq

/-- One file entry of the table returned by `GetProxyDllInfo` (rpcproxy.h):
`pStubVtblList idx` stands for `*(pStubVtblList[idx]->header.piid)`, the
interface id at index `idx`, and `pNamesArray idx` for the name at that index.
`TableSize` is an `unsigned short` in rpcproxy.h. -/
structure ProxyFileInfo where
  pStubVtblList : Nat → IID
  pNamesArray : Nat → String
  TableSize : Nat

/-- The null-terminated array of file entries, as the sequence of its entries. -/
abbrev ProxyDescriptorTable := List ProxyFileInfo

/-- Modelled from the spec: `PSClsidBackup_t` is declared in
COMProxyRegistration.h, which is not among the sources; its three fields are
those of the initialiser `{name,iid,clsidBackup}`. -/
structure PSClsidBackup_t where
  name : String
  iid : IID
  clsid : CLSID
  deriving DecidableEq

/-- Modelled from the spec: `COMProxyRegistration_t` is declared in
COMProxyRegistration.h, which is not among the sources; its fields are the
three the code reads and writes. -/
structure COMProxyRegistration_t where
  dllPath : String
  classObjectRegistrationCookie : ULONG_PTR
  psClsidBackups : List PSClsidBackup_t
  deriving DecidableEq

/-! ## The operating system as seen by the two functions -/

/-- A system call made by the code, with its arguments and its outcome. -/
inductive Event where
  | LoadLibrary (dllPath : String) (ret : HMODULE)
  | GetProcAddress (hModule : HMODULE) (procName : String) (found : Bool)
  | Dll_GetProxyDllInfo (gotInfo : Bool) (gotClsid : Bool)
  | CreateActCtx (actCtx : ACTCTX) (ret : HANDLE)
  | ActivateActCtx (hActCtx : HANDLE) (ok : Bool) (cookie : ULONG_PTR)
  | CoGetClassObject (clsid : CLSID) (res : HRESULT) (punk : PUNK)
  | DeactivateActCtx (dwFlags : Nat) (cookie : ULONG_PTR)
  | ReleaseActCtx (hActCtx : HANDLE)
  | CoRegisterClassObject (clsid : CLSID) (punk : PUNK) (res : HRESULT) (cookie : DWORD)
  | Release (punk : PUNK)
  | FreeLibrary (hModule : HMODULE)
  | CoGetPSClsid (iid : IID) (found : Option CLSID)
  | CoRegisterPSClsid (iid : IID) (clsid : CLSID) (res : HRESULT)
  | CoRevokeClassObject (cookie : DWORD) (res : HRESULT)
  | CoFreeUnusedLibrariesEx
  deriving DecidableEq

/-- The answers of the operating system.  `GetProcAddress` answers `none` for a
missing export and otherwise the two pointers the export will write:
the descriptor table and the class id, each possibly null (`none`). -/
structure Env where
  LoadLibrary : String → HMODULE
  GetProcAddress : HMODULE → String → Option (Option ProxyDescriptorTable × Option CLSID)
  CreateActCtx : ACTCTX → HANDLE
  ActivateActCtx : HANDLE → Bool × ULONG_PTR
  CoGetClassObject : CLSID → HRESULT × PUNK
  CoRegisterClassObject : CLSID → PUNK → HRESULT × DWORD
  CoRegisterPSClsid : List Event → IID → CLSID → HRESULT
  CoRevokeClassObject : List Event → DWORD → HRESULT

/-- The process-wide state the code acts on. -/
structure World where
  psClsid : IID → Option CLSID
  trace : List Event

/-- Record one system call. -/
def World.log (w : World) (e : Event) : World :=
  { w with trace := w.trace ++ [e] }

/-- The class id a `CoGetPSClsid` call leaves in a buffer initialised to
all zero: the mapping when one is set, the all-zero class id otherwise. -/
def psValue (w : World) (iid : IID) : CLSID :=
  (w.psClsid iid).getD CLSID_NULL

/-- The call `CoGetPSClsid(iid,&clsidBackup)` on `clsidBackup={0}`: the value
left in the buffer, and the world with the call recorded. -/
def CoGetPSClsid (w : World) (iid : IID) : CLSID × World :=
  (psValue w iid, w.log (.CoGetPSClsid iid (w.psClsid iid)))

/-- The call `CoRegisterPSClsid(iid,clsid)`: on `S_OK` the mapping of `iid`
becomes `clsid`, on any other result the mapping is left as it was. -/
def CoRegisterPSClsid (env : Env) (w : World) (iid : IID) (clsid : CLSID) : HRESULT × World :=
  let res := env.CoRegisterPSClsid w.trace iid clsid
  let w1 := w.log (.CoRegisterPSClsid iid clsid res)
  if res = S_OK then
    (res, { w1 with psClsid := fun i => if i = iid then some clsid else w1.psClsid i })
  else
    (res, w1)

/-- The call `CoRevokeClassObject(cookie)`. -/
def CoRevokeClassObject (env : Env) (w : World) (cookie : DWORD) : HRESULT × World :=
  let res := env.CoRevokeClassObject w.trace cookie
  (res, w.log (.CoRevokeClassObject cookie res))

/-! ## unregisterCOMProxy -/

/-- The range-for loop of `unregisterCOMProxy`: one `CoRegisterPSClsid` per
backup, its result only logged. -/
def restoreBackups (env : Env) (w : World) (backups : List PSClsidBackup_t) : World :=
  backups.foldl (fun w backup => (CoRegisterPSClsid env w backup.iid backup.clsid).2) w

/-- The function `unregisterCOMProxy`; `none` is the null pointer.  The cast
`(DWORD)(reg->classObjectRegistrationCookie)` is the reduction modulo 2^32. -/
def unregisterCOMProxy (env : Env) (w : World) (reg : Option COMProxyRegistration_t) :
    Bool × World :=
  match reg with
  | none => (false, w)
  | some reg =>
    let w1 := restoreBackups env w reg.psClsidBackups
    let (res, w2) := CoRevokeClassObject env w1 (reg.classObjectRegistrationCookie % 2 ^ 32)
    let w3 := if res ≠ S_OK then w2 else w2.log .CoFreeUnusedLibrariesEx
    (true, w3)

/-! ## registerCOMProxy -/

/-- The body of the inner `for` loop of `registerCOMProxy`, at index `idx` of
`fileInfo`: the backup is pushed only when `CoRegisterPSClsid` returned `S_OK`
(the `continue` skips the `push_back`). -/
def remapInterface (env : Env) (pProxyClsid : CLSID) (fileInfo : ProxyFileInfo)
    (st : World × List PSClsidBackup_t) (idx : Nat) : World × List PSClsidBackup_t :=
  let iid := fileInfo.pStubVtblList idx
  let name := fileInfo.pNamesArray idx
  let (clsidBackup, w1) := CoGetPSClsid st.1 iid
  let (res, w2) := CoRegisterPSClsid env w1 iid pProxyClsid
  if res ≠ S_OK then
    (w2, st.2)
  else
    (w2, st.2 ++ [{ name := name, iid := iid, clsid := clsidBackup }])

/-- The inner `for(unsigned short idx=0;idx<fileInfo.TableSize;++idx)` loop. -/
def remapFile (env : Env) (pProxyClsid : CLSID)
    (st : World × List PSClsidBackup_t) (fileInfo : ProxyFileInfo) : World × List PSClsidBackup_t :=
  (List.range fileInfo.TableSize).foldl (remapInterface env pProxyClsid fileInfo) st

/-- The outer `while(*tempInfoPtr)` loop over the file entries. -/
def remapTable (env : Env) (pProxyClsid : CLSID)
    (st : World × List PSClsidBackup_t) (pProxyInfo : ProxyDescriptorTable) :
    World × List PSClsidBackup_t :=
  pProxyInfo.foldl (remapFile env pProxyClsid) st

/-- The function `registerCOMProxy`; `none` is the null pointer returned on a
failure. -/
def registerCOMProxy (env : Env) (w : World) (dllPath : String) :
    Option COMProxyRegistration_t × World :=
  let dllHandle := env.LoadLibrary dllPath
  let w := w.log (.LoadLibrary dllPath dllHandle)
  if dllHandle = NULL then (none, w) else
  match env.GetProcAddress dllHandle "GetProxyDllInfo" with
  | none =>
    let w := w.log (.GetProcAddress dllHandle "GetProxyDllInfo" false)
    let w := w.log (.FreeLibrary dllHandle)
    (none, w)
  | some (pProxyInfo, pProxyClsid) =>
    let w := w.log (.GetProcAddress dllHandle "GetProxyDllInfo" true)
    let w := w.log (.Dll_GetProxyDllInfo pProxyInfo.isSome pProxyClsid.isSome)
    match pProxyClsid, pProxyInfo with
    | none, _ => (none, w.log (.FreeLibrary dllHandle))
    | some _, none => (none, w.log (.FreeLibrary dllHandle))
    | some proxyClsid, some proxyInfo =>
      let actCtx : ACTCTX :=
        { dwFlags := ACTCTX_FLAG_HMODULE_VALID ||| ACTCTX_FLAG_RESOURCE_NAME_VALID
          lpResourceName := 2
          hModule := dllHandle }
      let hActCtx := env.CreateActCtx actCtx
      let w := w.log (.CreateActCtx actCtx hActCtx)
      if hActCtx = NULL then (none, w.log (.FreeLibrary dllHandle)) else
      let (activated, actCtxCookie) := env.ActivateActCtx hActCtx
      let w := w.log (.ActivateActCtx hActCtx activated actCtxCookie)
      if !activated then
        let w := w.log (.ReleaseActCtx hActCtx)
        (none, w.log (.FreeLibrary dllHandle))
      else
      let (res, ClassObjPunk) := env.CoGetClassObject proxyClsid
      let w := w.log (.CoGetClassObject proxyClsid res ClassObjPunk)
      let w := w.log (.DeactivateActCtx 0 actCtxCookie)
      let w := w.log (.ReleaseActCtx hActCtx)
      if res ≠ S_OK then (none, w.log (.FreeLibrary dllHandle)) else
      let (res, dwCookie) := env.CoRegisterClassObject proxyClsid ClassObjPunk
      let w := w.log (.CoRegisterClassObject proxyClsid ClassObjPunk res dwCookie)
      let w := w.log (.Release ClassObjPunk)
      if res ≠ S_OK then (none, w.log (.FreeLibrary dllHandle)) else
      let st := remapTable env proxyClsid (w, []) proxyInfo
      let w := st.1.log (.FreeLibrary dllHandle)
      (some { dllPath := dllPath
              classObjectRegistrationCookie := dwCookie
              psClsidBackups := st.2 }, w)

/-! ## Vocabulary of the statements -/

/-- The system calls recorded between the world `w` and the later world `w1`. -/
def newEvents (w w1 : World) : List Event :=
  w1.trace.drop w.trace.length

/-- The restore calls `unregisterCOMProxy` is expected to issue for a backup
sequence, given the result of each call. -/
def restoreCalls (backups : List PSClsidBackup_t) (results : List HRESULT) : List Event :=
  List.zipWith (fun b r => Event.CoRegisterPSClsid b.iid b.clsid r) backups results

/-- The results of the restore calls of `restoreBackups`, in call order. -/
def restoreResults (env : Env) (w : World) : List PSClsidBackup_t → List HRESULT
  | [] => []
  | b :: bs =>
    (CoRegisterPSClsid env w b.iid b.clsid).1 ::
      restoreResults env (CoRegisterPSClsid env w b.iid b.clsid).2 bs

/-! ## Sample inputs -/

/-- A world with no proxy/stub mapping set and no call made yet. -/
def emptyWorld : World :=
  { psClsid := fun _ => none, trace := [] }

/-- The descriptor table of the spec scenario: one file entry with the
interfaces A = 1 and B = 2. -/
def sampleTable : ProxyDescriptorTable :=
  [{ pStubVtblList := fun idx => idx + 1
     pNamesArray := fun idx => if idx = 0 then "A" else "B"
     TableSize := 2 }]

/-- The component "sample" of the spec scenario, class id C1 = 77: every call
succeeds, except `CoRegisterPSClsid` for the interfaces listed in `rejected`
and `CoRevokeClassObject` when `revokeOk` is false. -/
def sampleEnv (rejected : List IID) (revokeOk : Bool) : Env :=
  { LoadLibrary := fun dllPath => if dllPath = "sample" then 100 else NULL
    GetProcAddress := fun hModule procName =>
      if hModule = 100 ∧ procName = "GetProxyDllInfo" then some (some sampleTable, some 77)
      else none
    CreateActCtx := fun _ => 200
    ActivateActCtx := fun _ => (true, 300)
    CoGetClassObject := fun _ => (S_OK, 400)
    CoRegisterClassObject := fun _ _ => (S_OK, 500)
    CoRegisterPSClsid := fun _ iid _ => if iid ∈ rejected then -1 else S_OK
    CoRevokeClassObject := fun _ _ => if revokeOk then S_OK else -1 }

/-- A record with two backups, as a successful registration of "sample" in
the empty world produces it. -/
def sampleRecord : COMProxyRegistration_t :=
  { dllPath := "sample"
    classObjectRegistrationCookie := 500
    psClsidBackups := [{ name := "A", iid := 1, clsid := 0 }, { name := "B", iid := 2, clsid := 0 }] }

/-! ## The remap loop, interface by interface -/

/-- The interfaces of one file entry, by ascending index: id and name. -/
def fileInterfaces (fileInfo : ProxyFileInfo) : List (IID × String) :=
  (List.range fileInfo.TableSize).map fun idx =>
    (fileInfo.pStubVtblList idx, fileInfo.pNamesArray idx)

/-- The interfaces of a descriptor table in table order: file entries in
order, interfaces by ascending index within each entry. -/
def tableInterfaces : ProxyDescriptorTable → List (IID × String)
  | [] => []
  | fileInfo :: rest => fileInterfaces fileInfo ++ tableInterfaces rest

/-- The interface ids of a descriptor table, in table order. -/
def tableIids (pProxyInfo : ProxyDescriptorTable) : List IID :=
  (tableInterfaces pProxyInfo).map Prod.fst

/-- The world after the two calls made for one interface: `CoGetPSClsid`, then
`CoRegisterPSClsid` with the component's class id. -/
def remapWorld (env : Env) (pProxyClsid : CLSID) (w : World) (x : IID × String) : World :=
  (CoRegisterPSClsid env (CoGetPSClsid w x.1).2 x.1 pProxyClsid).2

/-- The result of the remap call made for one interface. -/
def remapResult (env : Env) (pProxyClsid : CLSID) (w : World) (x : IID × String) : HRESULT :=
  (CoRegisterPSClsid env (CoGetPSClsid w x.1).2 x.1 pProxyClsid).1

/-- The world at the end of the remap loop over a list of interfaces. -/
def remapEnd (env : Env) (pProxyClsid : CLSID) (w : World) (xs : List (IID × String)) : World :=
  xs.foldl (remapWorld env pProxyClsid) w

/-- The two calls recorded for each interface of a list, visited in order
from the world `w`. -/
def remapCalls (env : Env) (pProxyClsid : CLSID) : World → List (IID × String) → List Event
  | _, [] => []
  | w, x :: xs =>
    Event.CoGetPSClsid x.1 (w.psClsid x.1)
      :: Event.CoRegisterPSClsid x.1 pProxyClsid (remapResult env pProxyClsid w x)
      :: remapCalls env pProxyClsid (remapWorld env pProxyClsid w x) xs

/-- The backups of the interfaces of a list whose remap call returned `S_OK`,
visited in order from the world `w`, each with the class id read when the
interface was visited. -/
def remappedBackups (env : Env) (pProxyClsid : CLSID) :
    World → List (IID × String) → List PSClsidBackup_t
  | _, [] => []
  | w, x :: xs =>
    (if remapResult env pProxyClsid w x = S_OK then
        [{ name := x.2, iid := x.1, clsid := psValue w x.1 }]
      else [])
      ++ remappedBackups env pProxyClsid (remapWorld env pProxyClsid w x) xs

/-- The backup sequence the claim of a fully successful registration describes:
one entry per interface, in order, each paired with the mapping the interface
has when it is visited (the all-zero class id when none is set), every earlier
interface having been remapped to the component's class id. -/
def visitBackups (pProxyClsid : CLSID) :
    (IID → Option CLSID) → List (IID × String) → List PSClsidBackup_t
  | _, [] => []
  | g, x :: xs =>
    { name := x.2, iid := x.1, clsid := (g x.1).getD CLSID_NULL }
      :: visitBackups pProxyClsid (fun i => if i = x.1 then some pProxyClsid else g i) xs

/-! ## The runs of registerCOMProxy -/

/-- The ACTCTX structure `registerCOMProxy` builds for a module handle. -/
def manifestActCtx (dllHandle : HMODULE) : ACTCTX :=
  { dwFlags := ACTCTX_FLAG_HMODULE_VALID ||| ACTCTX_FLAG_RESOURCE_NAME_VALID
    lpResourceName := 2
    hModule := dllHandle }

/-- The world `w` after the calls `evs`, none of which sets a mapping. -/
def World.after (w : World) (evs : List Event) : World :=
  { psClsid := w.psClsid, trace := w.trace ++ evs }

/-- The calls of a run in which all hard steps succeed, up to the release of
the class object reference. -/
def hardStepCalls (dllPath : String) (h : HMODULE) (c : CLSID) (a : HANDLE) (k : ULONG_PTR)
    (p : PUNK) (ck : DWORD) : List Event :=
  [.LoadLibrary dllPath h, .GetProcAddress h "GetProxyDllInfo" true,
   .Dll_GetProxyDllInfo true true, .CreateActCtx (manifestActCtx h) a,
   .ActivateActCtx a true k, .CoGetClassObject c S_OK p, .DeactivateActCtx 0 k,
   .ReleaseActCtx a, .CoRegisterClassObject c p S_OK ck, .Release p]

/-- The exits of `registerCOMProxy`, one constructor per `return` of the source,
each with the answers of the operating system that lead to it, the value
returned and the world left behind. -/
inductive Run (env : Env) (w : World) (dllPath : String) :
    Option COMProxyRegistration_t × World → Prop
  | loadFailed (h0 : env.LoadLibrary dllPath = NULL) :
    Run env w dllPath (none, w.after [.LoadLibrary dllPath NULL])
  | exportMissing (h : HMODULE) (h0 : env.LoadLibrary dllPath = h) (h1 : h ≠ NULL)
      (h2 : env.GetProcAddress h "GetProxyDllInfo" = none) :
    Run env w dllPath (none, w.after
      [.LoadLibrary dllPath h, .GetProcAddress h "GetProxyDllInfo" false, .FreeLibrary h])
  | descriptorNull (h : HMODULE) (oi : Option ProxyDescriptorTable) (oc : Option CLSID)
      (h0 : env.LoadLibrary dllPath = h) (h1 : h ≠ NULL)
      (h2 : env.GetProcAddress h "GetProxyDllInfo" = some (oi, oc))
      (h3 : oc = none ∨ oi = none) :
    Run env w dllPath (none, w.after
      [.LoadLibrary dllPath h, .GetProcAddress h "GetProxyDllInfo" true,
       .Dll_GetProxyDllInfo oi.isSome oc.isSome, .FreeLibrary h])
  | createFailed (h : HMODULE) (t : ProxyDescriptorTable) (c : CLSID)
      (h0 : env.LoadLibrary dllPath = h) (h1 : h ≠ NULL)
      (h2 : env.GetProcAddress h "GetProxyDllInfo" = some (some t, some c))
      (h3 : env.CreateActCtx (manifestActCtx h) = NULL) :
    Run env w dllPath (none, w.after
      [.LoadLibrary dllPath h, .GetProcAddress h "GetProxyDllInfo" true,
       .Dll_GetProxyDllInfo true true, .CreateActCtx (manifestActCtx h) NULL, .FreeLibrary h])
  | activateFailed (h : HMODULE) (t : ProxyDescriptorTable) (c : CLSID) (a : HANDLE)
      (k : ULONG_PTR)
      (h0 : env.LoadLibrary dllPath = h) (h1 : h ≠ NULL)
      (h2 : env.GetProcAddress h "GetProxyDllInfo" = some (some t, some c))
      (h3 : env.CreateActCtx (manifestActCtx h) = a) (h4 : a ≠ NULL)
      (h5 : env.ActivateActCtx a = (false, k)) :
    Run env w dllPath (none, w.after
      [.LoadLibrary dllPath h, .GetProcAddress h "GetProxyDllInfo" true,
       .Dll_GetProxyDllInfo true true, .CreateActCtx (manifestActCtx h) a,
       .ActivateActCtx a false k, .ReleaseActCtx a, .FreeLibrary h])
  | resolveFailed (h : HMODULE) (t : ProxyDescriptorTable) (c : CLSID) (a : HANDLE)
      (k : ULONG_PTR) (res : HRESULT) (p : PUNK)
      (h0 : env.LoadLibrary dllPath = h) (h1 : h ≠ NULL)
      (h2 : env.GetProcAddress h "GetProxyDllInfo" = some (some t, some c))
      (h3 : env.CreateActCtx (manifestActCtx h) = a) (h4 : a ≠ NULL)
      (h5 : env.ActivateActCtx a = (true, k))
      (h6 : env.CoGetClassObject c = (res, p)) (h7 : res ≠ S_OK) :
    Run env w dllPath (none, w.after
      [.LoadLibrary dllPath h, .GetProcAddress h "GetProxyDllInfo" true,
       .Dll_GetProxyDllInfo true true, .CreateActCtx (manifestActCtx h) a,
       .ActivateActCtx a true k, .CoGetClassObject c res p, .DeactivateActCtx 0 k,
       .ReleaseActCtx a, .FreeLibrary h])
  | registerFailed (h : HMODULE) (t : ProxyDescriptorTable) (c : CLSID) (a : HANDLE)
      (k : ULONG_PTR) (p : PUNK) (res : HRESULT) (ck : DWORD)
      (h0 : env.LoadLibrary dllPath = h) (h1 : h ≠ NULL)
      (h2 : env.GetProcAddress h "GetProxyDllInfo" = some (some t, some c))
      (h3 : env.CreateActCtx (manifestActCtx h) = a) (h4 : a ≠ NULL)
      (h5 : env.ActivateActCtx a = (true, k))
      (h6 : env.CoGetClassObject c = (S_OK, p))
      (h7 : env.CoRegisterClassObject c p = (res, ck)) (h8 : res ≠ S_OK) :
    Run env w dllPath (none, w.after
      [.LoadLibrary dllPath h, .GetProcAddress h "GetProxyDllInfo" true,
       .Dll_GetProxyDllInfo true true, .CreateActCtx (manifestActCtx h) a,
       .ActivateActCtx a true k, .CoGetClassObject c S_OK p, .DeactivateActCtx 0 k,
       .ReleaseActCtx a, .CoRegisterClassObject c p res ck, .Release p, .FreeLibrary h])
  | registered (h : HMODULE) (t : ProxyDescriptorTable) (c : CLSID) (a : HANDLE)
      (k : ULONG_PTR) (p : PUNK) (ck : DWORD)
      (h0 : env.LoadLibrary dllPath = h) (h1 : h ≠ NULL)
      (h2 : env.GetProcAddress h "GetProxyDllInfo" = some (some t, some c))
      (h3 : env.CreateActCtx (manifestActCtx h) = a) (h4 : a ≠ NULL)
      (h5 : env.ActivateActCtx a = (true, k))
      (h6 : env.CoGetClassObject c = (S_OK, p))
      (h7 : env.CoRegisterClassObject c p = (S_OK, ck)) :
    Run env w dllPath
      (some { dllPath := dllPath
              classObjectRegistrationCookie := ck
              psClsidBackups :=
                (remapTable env c (w.after (hardStepCalls dllPath h c a k p ck), []) t).2 },
       (remapTable env c (w.after (hardStepCalls dllPath h c a k p ck), []) t).1.log
          (.FreeLibrary h))

/-! ## Hard steps, resources and call classes -/

/-- At least one of the seven hard steps of `registerCOMProxy` fails: loading
the module, finding the export, obtaining a non-null table and a non-null class
id, creating the activation context, activating it, resolving the class
object, registering the class object. -/
def HardStepFails (env : Env) (dllPath : String) : Prop :=
  env.LoadLibrary dllPath = NULL ∨
  env.GetProcAddress (env.LoadLibrary dllPath) "GetProxyDllInfo" = none ∨
  (∃ oi oc, env.GetProcAddress (env.LoadLibrary dllPath) "GetProxyDllInfo" = some (oi, oc)
      ∧ (oi = none ∨ oc = none)) ∨
  env.CreateActCtx (manifestActCtx (env.LoadLibrary dllPath)) = NULL ∨
  (env.ActivateActCtx (env.CreateActCtx (manifestActCtx (env.LoadLibrary dllPath)))).1 = false ∨
  (∃ t c, env.GetProcAddress (env.LoadLibrary dllPath) "GetProxyDllInfo" = some (some t, some c)
      ∧ (env.CoGetClassObject c).1 ≠ S_OK) ∨
  (∃ t c, env.GetProcAddress (env.LoadLibrary dllPath) "GetProxyDllInfo" = some (some t, some c)
      ∧ (env.CoRegisterClassObject c (env.CoGetClassObject c).2).1 ≠ S_OK)

/-- The intermediate resources of `registerCOMProxy`. -/
inductive Resource where
  | module (hModule : HMODULE)
  | actCtx (hActCtx : HANDLE)
  | activation (cookie : ULONG_PTR)
  | classObject (punk : PUNK)
  deriving DecidableEq

/-- The resource a call acquires, judged by its outcome. -/
def Event.acquires : Event → Option Resource
  | .LoadLibrary _ ret => if ret = NULL then none else some (.module ret)
  | .CreateActCtx _ ret => if ret = NULL then none else some (.actCtx ret)
  | .ActivateActCtx _ ok cookie => if ok then some (.activation cookie) else none
  | .CoGetClassObject _ res punk => if res = S_OK then some (.classObject punk) else none
  | _ => none

/-- The resource a call releases. -/
def Event.releases : Event → Option Resource
  | .FreeLibrary hModule => some (.module hModule)
  | .ReleaseActCtx hActCtx => some (.actCtx hActCtx)
  | .DeactivateActCtx _ cookie => some (.activation cookie)
  | .Release punk => some (.classObject punk)
  | _ => none

/-- One step of the ledger of held resources: a release is legal only for a
resource that is held, and takes it off the ledger; an acquisition puts the
resource on it.  The ledger is `none` once an illegal release has happened. -/
def holdStep (held : Option (List Resource)) (e : Event) : Option (List Resource) :=
  match held with
  | none => none
  | some l =>
    match e.releases with
    | some r => if r ∈ l then some (l.erase r) else none
    | none =>
      match e.acquires with
      | some r => some (r :: l)
      | none => some l

/-- The resources held after a sequence of calls, starting with none held. -/
def heldAfter (evs : List Event) : Option (List Resource) :=
  evs.foldl holdStep (some [])

/-- Calls that register something process-wide: the class object, or a
proxy/stub mapping. -/
def Event.isRegistration : Event → Bool
  | .CoRegisterClassObject _ _ _ _ => true
  | .CoRegisterPSClsid _ _ _ => true
  | _ => false

/-- Calls on the activation context. -/
def Event.isActCtxCall : Event → Bool
  | .CreateActCtx _ _ => true
  | .ActivateActCtx _ _ _ => true
  | .DeactivateActCtx _ _ => true
  | .ReleaseActCtx _ => true
  | _ => false

/-- The interface id a call remaps or restores successfully, if it is such a
call. -/
def Event.remappedIid : Event → Option IID
  | .CoRegisterPSClsid iid _ res => if res = S_OK then some iid else none
  | _ => none

/-- The component "sample" without the `GetProxyDllInfo` export. -/
def noExportEnv : Env :=
  { sampleEnv [] true with GetProcAddress := fun _ _ => none }

/-! ## Lemmas on unregisterCOMProxy -/

theorem restoreBackups_cons (env : Env) (w : World) (b : PSClsidBackup_t)
    (bs : List PSClsidBackup_t) :
    restoreBackups env w (b :: bs)
      = restoreBackups env (CoRegisterPSClsid env w b.iid b.clsid).2 bs := rfl

theorem CoRegisterPSClsid_trace (env : Env) (w : World) (iid : IID) (clsid : CLSID) :
    (CoRegisterPSClsid env w iid clsid).2.trace
      = w.trace ++ [Event.CoRegisterPSClsid iid clsid (CoRegisterPSClsid env w iid clsid).1] := by
  unfold CoRegisterPSClsid
  by_cases h : env.CoRegisterPSClsid w.trace iid clsid = S_OK <;> simp [h, World.log]

theorem CoRegisterPSClsid_psClsid (env : Env) (w : World) (iid : IID) (clsid : CLSID)
    (i : IID) :
    (CoRegisterPSClsid env w iid clsid).2.psClsid i
      = if (CoRegisterPSClsid env w iid clsid).1 = S_OK ∧ i = iid then some clsid
        else w.psClsid i := by
  unfold CoRegisterPSClsid
  generalize env.CoRegisterPSClsid w.trace iid clsid = res
  by_cases h : res = S_OK
  · simp [h, World.log]
  · simp [h, World.log]

theorem restoreResults_length (env : Env) (bs : List PSClsidBackup_t) :
    ∀ w : World, (restoreResults env w bs).length = bs.length := by
  induction bs with
  | nil => intro w; rfl
  | cons b bs ih => intro w; simp [restoreResults, ih]

theorem restoreBackups_trace (env : Env) (bs : List PSClsidBackup_t) :
    ∀ w : World, (restoreBackups env w bs).trace
      = w.trace ++ restoreCalls bs (restoreResults env w bs) := by
  induction bs with
  | nil => intro w; simp [restoreBackups, restoreCalls, restoreResults]
  | cons b bs ih =>
    intro w
    rw [restoreBackups_cons, ih, CoRegisterPSClsid_trace]
    simp [restoreCalls, restoreResults]

theorem restoreBackups_frame (env : Env) (bs : List PSClsidBackup_t) (i : IID) :
    ∀ w : World, i ∉ bs.map (fun b => b.iid) →
      (restoreBackups env w bs).psClsid i = w.psClsid i := by
  induction bs with
  | nil => intro w _; rfl
  | cons b bs ih =>
    intro w hi
    simp only [List.map_cons, List.mem_cons, not_or] at hi
    rw [restoreBackups_cons, ih _ hi.2, CoRegisterPSClsid_psClsid]
    simp [hi.1]

theorem restoreBackups_restores (env : Env) (bs : List PSClsidBackup_t) :
    ∀ w : World, (∀ r ∈ restoreResults env w bs, r = S_OK) →
      (bs.map (fun b => b.iid)).Nodup →
      ∀ b ∈ bs, (restoreBackups env w bs).psClsid b.iid = some b.clsid := by
  induction bs with
  | nil => intro w _ _ b hb; simp at hb
  | cons b0 bs ih =>
    intro w hok hnd b hb
    simp only [List.map_cons, List.nodup_cons] at hnd
    have h0 : (CoRegisterPSClsid env w b0.iid b0.clsid).1 = S_OK :=
      hok _ (by simp [restoreResults])
    rw [restoreBackups_cons]
    rcases List.mem_cons.1 hb with rfl | hb
    · rw [restoreBackups_frame env bs _ _ hnd.1, CoRegisterPSClsid_psClsid]
      simp [h0]
    · exact ih _ (fun r hr => hok r (by simp [restoreResults, hr])) hnd.2 b hb

theorem restoreResults_of_calls (env : Env) (bs : List PSClsidBackup_t) :
    ∀ w : World,
      (∀ i cl r, Event.CoRegisterPSClsid i cl r
        ∈ restoreCalls bs (restoreResults env w bs) → r = S_OK) →
      ∀ r ∈ restoreResults env w bs, r = S_OK := by
  induction bs with
  | nil => intro w _ r hr; simp [restoreResults] at hr
  | cons b bs ih =>
    intro w hcalls r hr
    simp only [restoreResults, List.mem_cons] at hr
    rcases hr with rfl | hr
    · exact hcalls b.iid b.clsid _ (by simp [restoreCalls, restoreResults])
    · refine ih _ (fun i cl r2 h2 => hcalls i cl r2 ?_) r hr
      simp only [restoreCalls, restoreResults, List.zipWith_cons_cons, List.mem_cons]
      exact Or.inr h2

/-- The calls made by `unregisterCOMProxy` on a present record, and the mapping
it leaves. -/
theorem unregister_some (env : Env) (w : World) (reg : COMProxyRegistration_t) :
    ∃ res : HRESULT,
      newEvents w (unregisterCOMProxy env w (some reg)).2
        = restoreCalls reg.psClsidBackups (restoreResults env w reg.psClsidBackups)
          ++ [Event.CoRevokeClassObject (reg.classObjectRegistrationCookie % 2 ^ 32) res]
          ++ (if res = S_OK then [Event.CoFreeUnusedLibrariesEx] else [])
      ∧ (unregisterCOMProxy env w (some reg)).2.psClsid
        = (restoreBackups env w reg.psClsidBackups).psClsid := by
  refine ⟨env.CoRevokeClassObject (restoreBackups env w reg.psClsidBackups).trace
      (reg.classObjectRegistrationCookie % 2 ^ 32), ?_⟩
  simp only [unregisterCOMProxy, CoRevokeClassObject, newEvents]
  generalize env.CoRevokeClassObject (restoreBackups env w reg.psClsidBackups).trace
      (reg.classObjectRegistrationCookie % 2 ^ 32) = res
  by_cases h : res = S_OK
  · simp [h, World.log, restoreBackups_trace]
  · simp [h, World.log, restoreBackups_trace]

/-! ## Theorems on unregisterCOMProxy -/

/-- C7: on the null record `unregisterCOMProxy` returns false and the world is
the one it was given: no call is recorded (no restore, no revoke, no release of
libraries) and the proxy/stub mapping is unchanged. -/
theorem unregister_null_is_noop (env : Env) (w : World) :
    unregisterCOMProxy env w none = (false, w)
      ∧ newEvents w (unregisterCOMProxy env w none).2 = []
      ∧ (unregisterCOMProxy env w none).2.psClsid = w.psClsid := by
  simp [unregisterCOMProxy, newEvents]

/-- C3 (as stated, refuted): with the sample record and a revoke that fails,
`unregisterCOMProxy` returns true although the revoke call did not return
`S_OK`; so "true if and only if the revoke succeeded" does not hold. -/
theorem unregister_result_not_revoke_status :
    ¬ ((unregisterCOMProxy (sampleEnv [] false) emptyWorld (some sampleRecord)).1 = true
        ↔ (CoRevokeClassObject (sampleEnv [] false)
            (restoreBackups (sampleEnv [] false) emptyWorld sampleRecord.psClsidBackups)
            (sampleRecord.classObjectRegistrationCookie % 2 ^ 32)).1 = S_OK) := by
  simp [unregisterCOMProxy, CoRevokeClassObject, sampleEnv, S_OK]

/-- C3 (amended): for every present record and every pattern of restore and
revoke failures, `unregisterCOMProxy` returns true; neither a failed restore
nor a failed revoke changes the result. -/
theorem unregister_present_returns_true (env : Env) (w : World)
    (reg : COMProxyRegistration_t) :
    (unregisterCOMProxy env w (some reg)).1 = true := by
  simp [unregisterCOMProxy]

/-- C8: for every present record whose token is a DWORD value, and every
pattern of restore and revoke failures, the calls made by `unregisterCOMProxy`
are exactly: one restore call per backup entry, in the captured order, each
with that entry's interface id and backed-up class id; then one revoke call
with the record's token; then the release of unused libraries if and only if
the revoke returned `S_OK`. -/
theorem unregister_calls (env : Env) (w : World) (reg : COMProxyRegistration_t)
    (hTok : reg.classObjectRegistrationCookie < 2 ^ 32) :
    ∃ (results : List HRESULT) (res : HRESULT),
      results.length = reg.psClsidBackups.length ∧
      newEvents w (unregisterCOMProxy env w (some reg)).2
        = restoreCalls reg.psClsidBackups results
          ++ [Event.CoRevokeClassObject reg.classObjectRegistrationCookie res]
          ++ (if res = S_OK then [Event.CoFreeUnusedLibrariesEx] else []) := by
  refine ⟨restoreResults env w reg.psClsidBackups,
    env.CoRevokeClassObject (restoreBackups env w reg.psClsidBackups).trace
      reg.classObjectRegistrationCookie, restoreResults_length env _ w, ?_⟩
  have hmod : reg.classObjectRegistrationCookie % 2 ^ 32 = reg.classObjectRegistrationCookie :=
    Nat.mod_eq_of_lt hTok
  simp only [unregisterCOMProxy, CoRevokeClassObject, newEvents, hmod]
  generalize env.CoRevokeClassObject (restoreBackups env w reg.psClsidBackups).trace
      reg.classObjectRegistrationCookie = res
  by_cases h : res = S_OK
  · simp [h, World.log, restoreBackups_trace]
  · simp [h, World.log, restoreBackups_trace]

/-- C8, witness: the sample record with a failing revoke. -/
theorem unregister_calls_witness :
    sampleRecord.classObjectRegistrationCookie < 2 ^ 32 ∧
    ∃ (results : List HRESULT) (res : HRESULT),
      results.length = sampleRecord.psClsidBackups.length ∧
      newEvents emptyWorld (unregisterCOMProxy (sampleEnv [] false) emptyWorld (some sampleRecord)).2
        = restoreCalls sampleRecord.psClsidBackups results
          ++ [Event.CoRevokeClassObject sampleRecord.classObjectRegistrationCookie res]
          ++ (if res = S_OK then [Event.CoFreeUnusedLibrariesEx] else []) :=
  ⟨by decide, unregister_calls (sampleEnv [] false) emptyWorld sampleRecord (by decide)⟩

/-! ## Lemmas on registerCOMProxy -/

theorem registerCOMProxy_run (env : Env) (w : World) (dllPath : String) :
    Run env w dllPath (registerCOMProxy env w dllPath) := by
  by_cases h1 : env.LoadLibrary dllPath = NULL
  · have := Run.loadFailed (w := w) h1
    simpa [registerCOMProxy, h1, World.log, World.after] using this
  rcases h2 : env.GetProcAddress (env.LoadLibrary dllPath) "GetProxyDllInfo" with _ | ⟨oi, oc⟩
  · have := Run.exportMissing (w := w) _ rfl h1 h2
    simpa [registerCOMProxy, h1, h2, World.log, World.after] using this
  rcases oc with _ | c
  · have := Run.descriptorNull (w := w) _ oi none rfl h1 h2 (Or.inl rfl)
    simpa [registerCOMProxy, h1, h2, World.log, World.after] using this
  rcases oi with _ | t
  · have := Run.descriptorNull (w := w) _ none (some c) rfl h1 h2 (Or.inr rfl)
    simpa [registerCOMProxy, h1, h2, World.log, World.after] using this
  by_cases h3 : env.CreateActCtx (manifestActCtx (env.LoadLibrary dllPath)) = NULL
  · have := Run.createFailed (w := w) _ t c rfl h1 h2 h3
    rw [manifestActCtx] at h3
    simpa [registerCOMProxy, h1, h2, h3, World.log, World.after, manifestActCtx] using this
  rcases h5 : env.ActivateActCtx (env.CreateActCtx (manifestActCtx (env.LoadLibrary dllPath)))
    with ⟨ok, k⟩
  cases ok
  · have := Run.activateFailed (w := w) _ t c _ k rfl h1 h2 rfl h3 h5
    rw [manifestActCtx] at h3 h5
    simpa [registerCOMProxy, h1, h2, h3, h5, World.log, World.after, manifestActCtx] using this
  rcases h6 : env.CoGetClassObject c with ⟨res, p⟩
  by_cases h7 : res = S_OK
  swap
  · have := Run.resolveFailed (w := w) _ t c _ k res p rfl h1 h2 rfl h3 h5 h6 h7
    rw [manifestActCtx] at h3 h5
    simpa [registerCOMProxy, h1, h2, h3, h5, h6, h7, World.log, World.after, manifestActCtx]
      using this
  subst h7
  rcases h8 : env.CoRegisterClassObject c p with ⟨res, ck⟩
  by_cases h9 : res = S_OK
  swap
  · have := Run.registerFailed (w := w) _ t c _ k p res ck rfl h1 h2 rfl h3 h5 h6 h8 h9
    rw [manifestActCtx] at h3 h5
    simpa [registerCOMProxy, h1, h2, h3, h5, h6, h8, h9, World.log, World.after, manifestActCtx]
      using this
  subst h9
  have := Run.registered (w := w) _ t c _ k p ck rfl h1 h2 rfl h3 h5 h6 h8
  rw [manifestActCtx] at h3 h5
  simpa [registerCOMProxy, h1, h2, h3, h5, h6, h8, World.log, World.after, manifestActCtx,
    hardStepCalls] using this

/-! ## Lemmas on the remap loop -/

theorem remapWorld_trace (env : Env) (c : CLSID) (w : World) (x : IID × String) :
    (remapWorld env c w x).trace
      = w.trace ++ [Event.CoGetPSClsid x.1 (w.psClsid x.1),
                    Event.CoRegisterPSClsid x.1 c (remapResult env c w x)] := by
  simp [remapWorld, remapResult, CoRegisterPSClsid_trace, CoGetPSClsid, World.log]

theorem remapWorld_psClsid (env : Env) (c : CLSID) (w : World) (x : IID × String) (i : IID) :
    (remapWorld env c w x).psClsid i
      = if remapResult env c w x = S_OK ∧ i = x.1 then some c else w.psClsid i := by
  unfold remapWorld remapResult
  rw [CoRegisterPSClsid_psClsid]
  simp [CoGetPSClsid, World.log]

theorem remapInterface_eq (env : Env) (c : CLSID) (fileInfo : ProxyFileInfo) (w : World)
    (bs : List PSClsidBackup_t) (idx : Nat) :
    remapInterface env c fileInfo (w, bs) idx
      = (remapWorld env c w (fileInfo.pStubVtblList idx, fileInfo.pNamesArray idx),
         bs ++ remappedBackups env c w [(fileInfo.pStubVtblList idx, fileInfo.pNamesArray idx)]) := by
  unfold remapInterface remappedBackups remapWorld remapResult
  simp only [remappedBackups, List.append_nil]
  generalize CoRegisterPSClsid env (CoGetPSClsid w (fileInfo.pStubVtblList idx)).2
      (fileInfo.pStubVtblList idx) c = r
  by_cases h : r.1 = S_OK
  · simp [h, CoGetPSClsid]
  · simp [h, CoGetPSClsid]

theorem remappedBackups_append (env : Env) (c : CLSID) (xs ys : List (IID × String)) :
    ∀ w : World, remappedBackups env c w (xs ++ ys)
      = remappedBackups env c w xs ++ remappedBackups env c (remapEnd env c w xs) ys := by
  induction xs with
  | nil => intro w; simp [remappedBackups, remapEnd]
  | cons x xs ih => intro w; simp [remappedBackups, remapEnd, ih]

theorem remapEnd_append (env : Env) (c : CLSID) (w : World) (xs ys : List (IID × String)) :
    remapEnd env c w (xs ++ ys) = remapEnd env c (remapEnd env c w xs) ys := by
  simp [remapEnd]

theorem foldl_remapInterface (env : Env) (c : CLSID) (fileInfo : ProxyFileInfo)
    (idxs : List Nat) :
    ∀ (w : World) (bs : List PSClsidBackup_t),
      idxs.foldl (remapInterface env c fileInfo) (w, bs)
        = (remapEnd env c w
            (idxs.map fun idx => (fileInfo.pStubVtblList idx, fileInfo.pNamesArray idx)),
           bs ++ remappedBackups env c w
            (idxs.map fun idx => (fileInfo.pStubVtblList idx, fileInfo.pNamesArray idx))) := by
  induction idxs with
  | nil => intro w bs; simp [remapEnd, remappedBackups]
  | cons idx idxs ih =>
    intro w bs
    rw [List.foldl_cons, remapInterface_eq, ih]
    simp [remapEnd, remappedBackups]

theorem remapFile_eq (env : Env) (c : CLSID) (w : World) (bs : List PSClsidBackup_t)
    (fileInfo : ProxyFileInfo) :
    remapFile env c (w, bs) fileInfo
      = (remapEnd env c w (fileInterfaces fileInfo),
         bs ++ remappedBackups env c w (fileInterfaces fileInfo)) := by
  unfold remapFile fileInterfaces
  exact foldl_remapInterface env c fileInfo _ w bs

theorem remapTable_eq (env : Env) (c : CLSID) (t : ProxyDescriptorTable) :
    ∀ (w : World) (bs : List PSClsidBackup_t),
      remapTable env c (w, bs) t
        = (remapEnd env c w (tableInterfaces t),
           bs ++ remappedBackups env c w (tableInterfaces t)) := by
  induction t with
  | nil => intro w bs; simp [remapTable, remapEnd, remappedBackups, tableInterfaces]
  | cons fileInfo rest ih =>
    intro w bs
    have hstep : remapTable env c (w, bs) (fileInfo :: rest)
        = remapTable env c (remapFile env c (w, bs) fileInfo) rest := rfl
    rw [hstep, remapFile_eq, ih]
    simp [tableInterfaces, remapEnd_append, remappedBackups_append]

theorem remapEnd_trace (env : Env) (c : CLSID) (xs : List (IID × String)) :
    ∀ w : World, (remapEnd env c w xs).trace = w.trace ++ remapCalls env c w xs := by
  induction xs with
  | nil => intro w; simp [remapEnd, remapCalls]
  | cons x xs ih =>
    intro w
    have hstep : remapEnd env c w (x :: xs) = remapEnd env c (remapWorld env c w x) xs := rfl
    rw [hstep, ih, remapWorld_trace]
    simp [remapCalls]

theorem remapEnd_psClsid (env : Env) (c : CLSID) (xs : List (IID × String)) (i : IID) :
    ∀ w : World, (remapEnd env c w xs).psClsid i
      = if i ∈ (remappedBackups env c w xs).map (fun b => b.iid) then some c
        else w.psClsid i := by
  induction xs with
  | nil => intro w; simp [remapEnd, remappedBackups]
  | cons x xs ih =>
    intro w
    have hstep : remapEnd env c w (x :: xs) = remapEnd env c (remapWorld env c w x) xs := rfl
    rw [hstep, ih, remapWorld_psClsid]
    by_cases hr : remapResult env c w x = S_OK
    · by_cases hi : i = x.1
      · simp [remappedBackups, hr, hi]
      · simp [remappedBackups, hr, hi]
    · simp [remappedBackups, hr]

theorem remapCalls_shape (env : Env) (c : CLSID) (xs : List (IID × String)) :
    ∀ (w : World), ∀ e ∈ remapCalls env c w xs,
      (∃ i f, e = Event.CoGetPSClsid i f) ∨ (∃ i r, e = Event.CoRegisterPSClsid i c r) := by
  induction xs with
  | nil => intro w e he; simp [remapCalls] at he
  | cons x xs ih =>
    intro w e he
    simp only [remapCalls, List.mem_cons] at he
    rcases he with he | he | he
    · exact Or.inl ⟨_, _, he⟩
    · exact Or.inr ⟨_, _, he⟩
    · exact ih _ e he

theorem heldAfter_remapCalls (env : Env) (c : CLSID) (xs : List (IID × String)) :
    ∀ (w : World) (held : Option (List Resource)),
      (remapCalls env c w xs).foldl holdStep held = held := by
  induction xs with
  | nil => intro w held; rfl
  | cons x xs ih =>
    intro w held
    simp only [remapCalls, List.foldl_cons, ih]
    cases held <;> rfl

/-- The calls of a run that returns a record. -/
theorem registered_newEvents (env : Env) (w : World) (dllPath : String) (h : HMODULE)
    (t : ProxyDescriptorTable) (c : CLSID) (a : HANDLE) (k : ULONG_PTR) (p : PUNK) (ck : DWORD) :
    newEvents w ((remapTable env c (w.after (hardStepCalls dllPath h c a k p ck), []) t).1.log
        (.FreeLibrary h))
      = hardStepCalls dllPath h c a k p ck
        ++ remapCalls env c (w.after (hardStepCalls dllPath h c a k p ck)) (tableInterfaces t)
        ++ [.FreeLibrary h] := by
  simp [newEvents, remapTable_eq, World.log, remapEnd_trace, World.after]

theorem failed_newEvents (w : World) (evs : List Event) : newEvents w (w.after evs) = evs := by
  simp [newEvents, World.after]

theorem releases_remapCalls (env : Env) (c : CLSID) (xs : List (IID × String)) :
    ∀ w : World, (remapCalls env c w xs).filterMap Event.releases = [] := by
  induction xs with
  | nil => intro w; rfl
  | cons x xs ih => intro w; simp [remapCalls, Event.releases, ih]

theorem acquires_remapCalls (env : Env) (c : CLSID) (xs : List (IID × String)) :
    ∀ w : World, (remapCalls env c w xs).filterMap Event.acquires = [] := by
  induction xs with
  | nil => intro w; rfl
  | cons x xs ih => intro w; simp [remapCalls, Event.acquires, ih]

theorem perm_release_order {α : Type} (a b c d : α) : List.Perm [c, b, d, a] [a, b, c, d] :=
  (List.perm_append_comm : List.Perm ([c, b, d] ++ [a]) ([a] ++ [c, b, d])).trans
    ((List.Perm.swap b c [d]).cons a)

theorem register_none_iff (env : Env) (w : World) (dllPath : String) :
    (registerCOMProxy env w dllPath).1 = none ↔ HardStepFails env dllPath := by
  have hr := registerCOMProxy_run env w dllPath
  generalize registerCOMProxy env w dllPath = r at hr
  unfold HardStepFails
  cases hr with
  | loadFailed h0 => simp [h0]
  | exportMissing h h0 h1 h2 => subst h0; simp [h2]
  | descriptorNull h oi oc h0 h1 h2 h3 =>
    subst h0
    have : ∃ oi oc, env.GetProcAddress (env.LoadLibrary dllPath) "GetProxyDllInfo" = some (oi, oc)
        ∧ (oi = none ∨ oc = none) := ⟨oi, oc, h2, h3.symm⟩
    simp only [true_iff]
    exact Or.inr (Or.inr (Or.inl this))
  | createFailed h t c h0 h1 h2 h3 => subst h0; simp [h3]
  | activateFailed h t c a k h0 h1 h2 h3 h4 h5 => subst h0; subst h3; simp [h5]
  | resolveFailed h t c a k res p h0 h1 h2 h3 h4 h5 h6 h7 =>
    subst h0
    have : ∃ t c, env.GetProcAddress (env.LoadLibrary dllPath) "GetProxyDllInfo"
        = some (some t, some c) ∧ (env.CoGetClassObject c).1 ≠ S_OK := ⟨t, c, h2, by simp [h6, h7]⟩
    simp only [true_iff]
    exact Or.inr (Or.inr (Or.inr (Or.inr (Or.inr (Or.inl this)))))
  | registerFailed h t c a k p res ck h0 h1 h2 h3 h4 h5 h6 h7 h8 =>
    subst h0
    have : ∃ t c, env.GetProcAddress (env.LoadLibrary dllPath) "GetProxyDllInfo"
        = some (some t, some c)
        ∧ (env.CoRegisterClassObject c (env.CoGetClassObject c).2).1 ≠ S_OK :=
      ⟨t, c, h2, by simp [h6, h7, h8]⟩
    simp only [true_iff]
    exact Or.inr (Or.inr (Or.inr (Or.inr (Or.inr (Or.inr this)))))
  | registered h t c a k p ck h0 h1 h2 h3 h4 h5 h6 h7 =>
    subst h0; subst h3
    simp only [false_iff, reduceCtorEq]
    rintro (hf | hf | ⟨oi, oc, hf, hn⟩ | hf | hf | ⟨t2, c2, hf, hn⟩ | ⟨t2, c2, hf, hn⟩)
    · exact h1 hf
    · simp [h2] at hf
    · rw [h2] at hf
      simp only [Option.some.injEq, Prod.mk.injEq] at hf
      rcases hn with hn | hn
      · rw [← hf.1] at hn; simp at hn
      · rw [← hf.2] at hn; simp at hn
    · exact h4 hf
    · simp [h5] at hf
    · rw [h2] at hf
      simp only [Option.some.injEq, Prod.mk.injEq] at hf
      rw [← hf.2, h6] at hn
      exact hn rfl
    · rw [h2] at hf
      simp only [Option.some.injEq, Prod.mk.injEq] at hf
      rw [← hf.2, h6, h7] at hn
      exact hn rfl

/-- A run that returns a record, in terms of the remap loop. -/
theorem registered_shape (env : Env) (w : World) (dllPath : String)
    (reg : COMProxyRegistration_t) (t : ProxyDescriptorTable) (c : CLSID)
    (hReg : (registerCOMProxy env w dllPath).1 = some reg)
    (hInfo : env.GetProcAddress (env.LoadLibrary dllPath) "GetProxyDllInfo"
      = some (some t, some c)) :
    ∃ (h : HMODULE) (a : HANDLE) (k : ULONG_PTR) (p : PUNK) (ck : DWORD),
      reg.psClsidBackups
        = remappedBackups env c (w.after (hardStepCalls dllPath h c a k p ck)) (tableInterfaces t)
      ∧ newEvents w (registerCOMProxy env w dllPath).2
        = hardStepCalls dllPath h c a k p ck
          ++ remapCalls env c (w.after (hardStepCalls dllPath h c a k p ck)) (tableInterfaces t)
          ++ [.FreeLibrary h]
      ∧ ∀ i, (registerCOMProxy env w dllPath).2.psClsid i
          = if i ∈ reg.psClsidBackups.map (fun b => b.iid) then some c else w.psClsid i := by
  have hr := registerCOMProxy_run env w dllPath
  generalize registerCOMProxy env w dllPath = r at hr hReg
  cases hr <;> first
    | (simp at hReg; done)
    | skip
  rename_i h t2 c2 a k p ck h0 h1 h2 h3 h4 h5 h6 h7
  subst h0
  rw [h2] at hInfo
  simp only [Option.some.injEq, Prod.mk.injEq] at hInfo
  obtain ⟨rfl, rfl⟩ := hInfo
  simp only [Option.some.injEq] at hReg
  subst hReg
  refine ⟨_, a, k, p, ck, ?_, registered_newEvents env w dllPath _ t2 c2 a k p ck, ?_⟩
  · simp [remapTable_eq]
  · intro i
    simp [remapTable_eq, World.log, remapEnd_psClsid, World.after]

theorem mem_filterMap_remappedIid (evs : List Event) (i : IID) :
    i ∈ evs.filterMap Event.remappedIid ↔ ∃ cl, Event.CoRegisterPSClsid i cl S_OK ∈ evs := by
  rw [List.mem_filterMap]
  constructor
  · rintro ⟨e, he, hi⟩
    cases e <;> simp only [Event.remappedIid, reduceCtorEq] at hi
    rename_i iid cl res
    by_cases hres : res = S_OK
    · rw [if_pos hres] at hi
      simp only [Option.some.injEq] at hi
      subst hi; subst hres
      exact ⟨cl, he⟩
    · rw [if_neg hres] at hi
      exact absurd hi (by simp)
  · rintro ⟨cl, he⟩
    exact ⟨_, he, by simp [Event.remappedIid]⟩

theorem remappedIid_remapCalls (env : Env) (c : CLSID) (xs : List (IID × String)) :
    ∀ w : World, (remapCalls env c w xs).filterMap Event.remappedIid
      = (remappedBackups env c w xs).map (fun b => b.iid) := by
  induction xs with
  | nil => intro w; rfl
  | cons x xs ih =>
    intro w
    by_cases hr : remapResult env c w x = S_OK
    · simp [remapCalls, remappedBackups, Event.remappedIid, hr, ih]
    · simp [remapCalls, remappedBackups, Event.remappedIid, hr, ih]

theorem remapCalls_visits (env : Env) (c : CLSID) (xs : List (IID × String)) (i : IID) :
    ∀ w : World, i ∈ xs.map Prod.fst →
      ∃ r, Event.CoRegisterPSClsid i c r ∈ remapCalls env c w xs := by
  induction xs with
  | nil => intro w hi; simp at hi
  | cons x xs ih =>
    intro w hi
    simp only [List.map_cons, List.mem_cons] at hi
    rcases hi with rfl | hi
    · exact ⟨remapResult env c w x, by simp [remapCalls]⟩
    · obtain ⟨r, hr⟩ := ih (remapWorld env c w x) hi
      exact ⟨r, by simp [remapCalls, hr]⟩

theorem remappedBackups_all_ok (env : Env) (c : CLSID) (xs : List (IID × String)) :
    ∀ w : World,
      (∀ i cl r, Event.CoRegisterPSClsid i cl r ∈ remapCalls env c w xs → r = S_OK) →
      remappedBackups env c w xs = visitBackups c w.psClsid xs := by
  induction xs with
  | nil => intro w _; rfl
  | cons x xs ih =>
    intro w hok
    have hr : remapResult env c w x = S_OK := hok x.1 c _ (by simp [remapCalls])
    have hps : (remapWorld env c w x).psClsid
        = fun i => if i = x.1 then some c else w.psClsid i := by
      funext i
      simp [remapWorld_psClsid, hr]
    have hrest := ih (remapWorld env c w x) (fun i cl r h => hok i cl r (by simp [remapCalls, h]))
    simp [remappedBackups, visitBackups, hr, hrest, hps, psValue]

theorem visitBackups_interfaces (c : CLSID) (xs : List (IID × String)) :
    ∀ g : IID → Option CLSID, (visitBackups c g xs).map (fun b => (b.iid, b.name)) = xs := by
  induction xs with
  | nil => intro g; rfl
  | cons x xs ih => intro g; simp [visitBackups, ih]

theorem remappedBackups_sublist (env : Env) (c : CLSID) (xs : List (IID × String)) :
    ∀ w : World,
      ((remappedBackups env c w xs).map (fun b => b.iid)).Sublist (xs.map Prod.fst) := by
  induction xs with
  | nil => intro w; simp [remappedBackups]
  | cons x xs ih =>
    intro w
    by_cases hr : remapResult env c w x = S_OK
    · simpa [remappedBackups, hr] using (ih (remapWorld env c w x)).cons₂ x.1
    · simpa [remappedBackups, hr] using (ih (remapWorld env c w x)).cons x.1

theorem remappedBackups_clsid (env : Env) (c : CLSID) (xs : List (IID × String)) :
    ∀ w : World, (xs.map Prod.fst).Nodup →
      ∀ b ∈ remappedBackups env c w xs, b.clsid = psValue w b.iid := by
  induction xs with
  | nil => intro w _ b hb; simp [remappedBackups] at hb
  | cons x xs ih =>
    intro w hnd b hb
    simp only [List.map_cons, List.nodup_cons] at hnd
    simp only [remappedBackups, List.mem_append] at hb
    rcases hb with hb | hb
    · by_cases hr : remapResult env c w x = S_OK
      · simp only [hr, if_true, List.mem_singleton] at hb
        subst hb
        rfl
      · simp [hr] at hb
    · have hmem : b.iid ∈ xs.map Prod.fst :=
        (remappedBackups_sublist env c xs (remapWorld env c w x)).subset
          (List.mem_map_of_mem (fun b => b.iid) hb)
      have hne : b.iid ≠ x.1 := fun h => hnd.1 (h ▸ hmem)
      rw [ih _ hnd.2 b hb]
      simp [psValue, remapWorld_psClsid, hne]

/-! ## Theorems on registerCOMProxy -/

/-- C5: when `registerCOMProxy` returns absent, the proxy/stub mapping of every
interface id is the one before the call, and no `CoRegisterPSClsid` call was
made. -/
theorem register_absent_mapping_untouched (env : Env) (w : World) (dllPath : String)
    (hAbsent : (registerCOMProxy env w dllPath).1 = none) :
    (∀ iid, (registerCOMProxy env w dllPath).2.psClsid iid = w.psClsid iid)
      ∧ ∀ iid clsid res, Event.CoRegisterPSClsid iid clsid res
          ∉ newEvents w (registerCOMProxy env w dllPath).2 := by
  have hr := registerCOMProxy_run env w dllPath
  generalize registerCOMProxy env w dllPath = r at hr hAbsent
  cases hr <;> first
    | (simp at hAbsent; done)
    | (rw [failed_newEvents]; simp [World.after])

/-- C5, witness: the component "sample" without its export. -/
theorem register_absent_mapping_untouched_witness :
    (registerCOMProxy noExportEnv emptyWorld "sample").1 = none ∧
    ((∀ iid, (registerCOMProxy noExportEnv emptyWorld "sample").2.psClsid iid
        = emptyWorld.psClsid iid)
      ∧ ∀ iid clsid res, Event.CoRegisterPSClsid iid clsid res
          ∉ newEvents emptyWorld (registerCOMProxy noExportEnv emptyWorld "sample").2) :=
  ⟨by decide, register_absent_mapping_untouched noExportEnv emptyWorld "sample" (by decide)⟩

/-- C4: `registerCOMProxy` returns absent if and only if one of the seven hard
steps fails; replacing the answers of the remap calls by any others never
changes whether it returns absent; and every record returned carries the token
that the successful `CoRegisterClassObject` call of the run produced. -/
theorem register_absent_iff_hard_failure (env : Env) (w : World) (dllPath : String) :
    ((registerCOMProxy env w dllPath).1 = none ↔ HardStepFails env dllPath)
    ∧ (∀ f : List Event → IID → CLSID → HRESULT,
        ((registerCOMProxy { env with CoRegisterPSClsid := f } w dllPath).1 = none
          ↔ (registerCOMProxy env w dllPath).1 = none))
    ∧ (∀ reg, (registerCOMProxy env w dllPath).1 = some reg →
        ∃ c p, env.CoRegisterClassObject c p = (S_OK, reg.classObjectRegistrationCookie)
          ∧ Event.CoRegisterClassObject c p S_OK reg.classObjectRegistrationCookie
              ∈ newEvents w (registerCOMProxy env w dllPath).2) := by
  have key := fun env : Env => register_none_iff env w dllPath
  refine ⟨key env, ?_, ?_⟩
  · intro f
    rw [key, key]
    exact Iff.rfl
  · intro reg hreg
    have hr := registerCOMProxy_run env w dllPath
    generalize registerCOMProxy env w dllPath = r at hr hreg
    cases hr <;> first
      | (simp at hreg; done)
      | skip
    rename_i h t c a k p ck h0 h1 h2 h3 h4 h5 h6 h7
    simp only [Option.some.injEq] at hreg
    subst hreg
    refine ⟨c, p, h7, ?_⟩
    rw [registered_newEvents]
    simp [hardStepCalls]

/-- C10: on every exit of `registerCOMProxy`, with a record or absent and
whatever the calls answered, the releases made during the run are exactly the
resources acquired during the run (module handle, activation-context handle,
activation, class-object reference), each of them once; every release is of a
resource held at that moment, and nothing is held when the function returns. -/
theorem register_releases_what_it_acquired (env : Env) (w : World) (dllPath : String) :
    ((newEvents w (registerCOMProxy env w dllPath).2).filterMap Event.releases).Perm
        ((newEvents w (registerCOMProxy env w dllPath).2).filterMap Event.acquires)
    ∧ ((newEvents w (registerCOMProxy env w dllPath).2).filterMap Event.acquires).Nodup
    ∧ heldAfter (newEvents w (registerCOMProxy env w dllPath).2) = some [] := by
  have hr := registerCOMProxy_run env w dllPath
  generalize registerCOMProxy env w dllPath = r at hr
  cases hr with
  | loadFailed h0 =>
    rw [failed_newEvents]
    simp [heldAfter, holdStep, Event.releases, Event.acquires]
  | exportMissing h h0 h1 h2 =>
    rw [failed_newEvents]
    simp [heldAfter, holdStep, Event.releases, Event.acquires, h1]
  | descriptorNull h oi oc h0 h1 h2 h3 =>
    rw [failed_newEvents]
    simp [heldAfter, holdStep, Event.releases, Event.acquires, h1]
  | createFailed h t c h0 h1 h2 h3 =>
    rw [failed_newEvents]
    simp [heldAfter, holdStep, Event.releases, Event.acquires, h1]
  | activateFailed h t c a k h0 h1 h2 h3 h4 h5 =>
    rw [failed_newEvents]
    refine ⟨?_, ?_, ?_⟩
    · simp only [List.filterMap_cons, Event.releases, Event.acquires, h1, h4, if_false]
      simp only [List.filterMap_nil, Bool.false_eq_true, if_false]
      exact List.Perm.swap _ _ _
    · simp [Event.acquires, h1, h4]
    · simp [heldAfter, holdStep, Event.releases, Event.acquires, h1, h4]
  | resolveFailed h t c a k res p h0 h1 h2 h3 h4 h5 h6 h7 =>
    rw [failed_newEvents]
    refine ⟨?_, ?_, ?_⟩
    · simp only [List.filterMap_cons, Event.releases, Event.acquires, h1, h4, h7, if_false,
        if_true, List.filterMap_nil]
      exact ((List.Perm.swap _ _ _).cons _).trans
        (((List.Perm.swap _ _ _).trans ((List.Perm.swap _ _ _).cons _)))
    · simp [Event.acquires, h1, h4, h7]
    · simp [heldAfter, holdStep, Event.releases, Event.acquires, h1, h4, h7]
  | registerFailed h t c a k p res ck h0 h1 h2 h3 h4 h5 h6 h7 h8 =>
    rw [failed_newEvents]
    refine ⟨?_, ?_, ?_⟩
    · simp only [List.filterMap_cons, Event.releases, Event.acquires, h1, h4, if_false,
        if_true, List.filterMap_nil]
      exact perm_release_order _ _ _ _
    · simp [Event.acquires, h1, h4]
    · simp [heldAfter, holdStep, Event.releases, Event.acquires, h1, h4]
  | registered h t c a k p ck h0 h1 h2 h3 h4 h5 h6 h7 =>
    rw [registered_newEvents]
    refine ⟨?_, ?_, ?_⟩
    · simp only [List.filterMap_append, releases_remapCalls, acquires_remapCalls, hardStepCalls,
        List.filterMap_cons, Event.releases, Event.acquires, h1, h4, if_false,
        if_true, List.filterMap_nil, List.append_nil]
      exact perm_release_order _ _ _ _
    · simp [hardStepCalls, acquires_remapCalls, Event.acquires, h1, h4]
    · simp [heldAfter, hardStepCalls, List.foldl_append, heldAfter_remapCalls, holdStep,
        Event.releases, Event.acquires, h1, h4]

/-- C9: in every run of `registerCOMProxy` in which the activation context was
activated, the calls of the run are: calls that register nothing; then the
activation, the class-resolution call, the deactivation of that activation and
the release of that context, in this order and with nothing in between,
whatever the class-resolution call returned; then calls none of which is a call
on an activation context.  Every `CoRegisterClassObject` and every
`CoRegisterPSClsid` call of the run is therefore made after the context was
deactivated and released, also when the class registration fails. -/
theorem context_released_before_registration (env : Env) (w : World) (dllPath : String)
    (a : HANDLE) (k : ULONG_PTR)
    (hAct : Event.ActivateActCtx a true k ∈ newEvents w (registerCOMProxy env w dllPath).2) :
    ∃ (pre post : List Event) (c : CLSID) (res : HRESULT) (p : PUNK),
      newEvents w (registerCOMProxy env w dllPath).2
        = pre ++ [Event.ActivateActCtx a true k, Event.CoGetClassObject c res p,
                  Event.DeactivateActCtx 0 k, Event.ReleaseActCtx a] ++ post
      ∧ (∀ e ∈ pre, e.isRegistration = false)
      ∧ (∀ e ∈ post, e.isActCtxCall = false)
      ∧ (∀ e ∈ newEvents w (registerCOMProxy env w dllPath).2,
          e.isRegistration = true → e ∈ post) := by
  have hr := registerCOMProxy_run env w dllPath
  generalize registerCOMProxy env w dllPath = r at hr hAct
  cases hr with
  | loadFailed h0 => rw [failed_newEvents] at hAct; simp at hAct
  | exportMissing h h0 h1 h2 => rw [failed_newEvents] at hAct; simp at hAct
  | descriptorNull h oi oc h0 h1 h2 h3 => rw [failed_newEvents] at hAct; simp at hAct
  | createFailed h t c h0 h1 h2 h3 => rw [failed_newEvents] at hAct; simp at hAct
  | activateFailed h t c a2 k2 h0 h1 h2 h3 h4 h5 => rw [failed_newEvents] at hAct; simp at hAct
  | resolveFailed h t c a2 k2 res p h0 h1 h2 h3 h4 h5 h6 h7 =>
    rw [failed_newEvents] at hAct ⊢
    simp at hAct
    obtain ⟨rfl, rfl⟩ := hAct
    refine ⟨[.LoadLibrary dllPath h, .GetProcAddress h "GetProxyDllInfo" true,
      .Dll_GetProxyDllInfo true true, .CreateActCtx (manifestActCtx h) a],
      [.FreeLibrary h], c, res, p, by simp, ?_, ?_, ?_⟩
    · simp [Event.isRegistration]
    · simp [Event.isActCtxCall]
    · simp [Event.isRegistration]
  | registerFailed h t c a2 k2 p res ck h0 h1 h2 h3 h4 h5 h6 h7 h8 =>
    rw [failed_newEvents] at hAct ⊢
    simp at hAct
    obtain ⟨rfl, rfl⟩ := hAct
    refine ⟨[.LoadLibrary dllPath h, .GetProcAddress h "GetProxyDllInfo" true,
      .Dll_GetProxyDllInfo true true, .CreateActCtx (manifestActCtx h) a],
      [.CoRegisterClassObject c p res ck, .Release p, .FreeLibrary h], c, S_OK, p, by simp,
      ?_, ?_, ?_⟩
    · simp [Event.isRegistration]
    · simp [Event.isActCtxCall]
    · simp [Event.isRegistration]
  | registered h t c a2 k2 p ck h0 h1 h2 h3 h4 h5 h6 h7 =>
    rw [registered_newEvents] at hAct ⊢
    have hshape := remapCalls_shape env c (tableInterfaces t)
      (w.after (hardStepCalls dllPath h c a2 k2 p ck))
    have hAct2 : a = a2 ∧ k = k2 := by
      simp only [hardStepCalls, List.mem_append, List.mem_cons, List.mem_singleton] at hAct
      rcases hAct with (hAct | hAct) | hAct
      · simpa using hAct
      · rcases hshape _ hAct with ⟨i, f, hx⟩ | ⟨i, r, hx⟩ <;> simp at hx
      · simp at hAct
    obtain ⟨rfl, rfl⟩ := hAct2
    refine ⟨[.LoadLibrary dllPath h, .GetProcAddress h "GetProxyDllInfo" true,
      .Dll_GetProxyDllInfo true true, .CreateActCtx (manifestActCtx h) a],
      [.CoRegisterClassObject c p S_OK ck, .Release p]
        ++ remapCalls env c (w.after (hardStepCalls dllPath h c a k p ck)) (tableInterfaces t)
        ++ [.FreeLibrary h], c, S_OK, p, by simp [hardStepCalls], ?_, ?_, ?_⟩
    · simp [Event.isRegistration]
    · intro e he
      simp only [List.mem_append, List.mem_cons, List.mem_singleton] at he
      rcases he with (he | he) | he
      · rcases he with rfl | rfl | he
        · rfl
        · rfl
        · simp at he
      · rcases hshape _ he with ⟨i, f, rfl⟩ | ⟨i, r, rfl⟩ <;> rfl
      · rcases he with rfl | he
        · rfl
        · simp at he
    · intro e he hreg
      simp only [hardStepCalls, List.mem_append, List.mem_cons, List.mem_singleton] at he
      simp only [List.mem_append, List.mem_cons, List.mem_singleton]
      rcases he with (he | he) | he
      · rcases he with rfl | rfl | rfl | rfl | rfl | rfl | rfl | rfl | rfl | rfl | he
        all_goals first
          | (simp [Event.isRegistration] at hreg; done)
          | (exact absurd he (List.not_mem_nil _))
          | simp
      · exact Or.inl (Or.inr he)
      · rcases he with rfl | he
        · simp
        · simp at he

/-- C9, witness: the component "sample", every call succeeding. -/
theorem context_released_before_registration_witness :
    Event.ActivateActCtx 200 true 300
        ∈ newEvents emptyWorld (registerCOMProxy (sampleEnv [] true) emptyWorld "sample").2 ∧
    ∃ (pre post : List Event) (c : CLSID) (res : HRESULT) (p : PUNK),
      newEvents emptyWorld (registerCOMProxy (sampleEnv [] true) emptyWorld "sample").2
        = pre ++ [Event.ActivateActCtx 200 true 300, Event.CoGetClassObject c res p,
                  Event.DeactivateActCtx 0 300, Event.ReleaseActCtx 200] ++ post
      ∧ (∀ e ∈ pre, e.isRegistration = false)
      ∧ (∀ e ∈ post, e.isActCtxCall = false)
      ∧ (∀ e ∈ newEvents emptyWorld (registerCOMProxy (sampleEnv [] true) emptyWorld "sample").2,
          e.isRegistration = true → e ∈ post) :=
  ⟨by decide, context_released_before_registration (sampleEnv [] true) emptyWorld "sample"
    200 300 (by decide)⟩

/-- C6: when no hard step fails and every remap call of the run returns `S_OK`,
`registerCOMProxy` returns a record whose backup sequence has one entry per
interface of the table, in table order, each with the name of the interface and
the mapping it had when it was visited (the all-zero class id when none was
set); afterwards the mapping of every interface of the table is the class id of
the component. -/
theorem register_success_postcondition (env : Env) (w : World) (dllPath : String)
    (t : ProxyDescriptorTable) (c : CLSID)
    (hSteps : ¬ HardStepFails env dllPath)
    (hInfo : env.GetProcAddress (env.LoadLibrary dllPath) "GetProxyDllInfo"
      = some (some t, some c))
    (hRemaps : ∀ iid cl res, Event.CoRegisterPSClsid iid cl res
      ∈ newEvents w (registerCOMProxy env w dllPath).2 → res = S_OK) :
    ∃ reg, (registerCOMProxy env w dllPath).1 = some reg
      ∧ reg.psClsidBackups = visitBackups c w.psClsid (tableInterfaces t)
      ∧ reg.psClsidBackups.map (fun b => (b.iid, b.name)) = tableInterfaces t
      ∧ ∀ iid ∈ tableIids t, (registerCOMProxy env w dllPath).2.psClsid iid = some c := by
  rcases hres : (registerCOMProxy env w dllPath).1 with _ | reg
  · exact absurd ((register_none_iff env w dllPath).1 hres) hSteps
  obtain ⟨h, a, k, p, ck, hb, hev, hps⟩ := registered_shape env w dllPath reg t c hres hInfo
  have hall : reg.psClsidBackups = visitBackups c w.psClsid (tableInterfaces t) := by
    rw [hb]
    apply remappedBackups_all_ok
    intro i cl r hmem
    apply hRemaps i cl r
    rw [hev]
    simp [hmem]
  refine ⟨reg, rfl, hall, ?_, ?_⟩
  · rw [hall, visitBackups_interfaces]
  · intro iid hiid
    rw [hps]
    have hids : reg.psClsidBackups.map (fun b => b.iid) = tableIids t := by
      have := congrArg (List.map Prod.fst) (visitBackups_interfaces c (tableInterfaces t) w.psClsid)
      rw [← hall] at this
      simpa [tableIids, List.map_map, Function.comp_def] using this
    rw [hids, if_pos hiid]

/-- C6, witness: the spec scenario.  Interfaces A = 1 and B = 2 with no prior
mapping and class id C1 = 77 give the backups [(A, none), (B, none)] and the
mapping C1 for both. -/
theorem register_success_postcondition_witness :
    (¬ HardStepFails (sampleEnv [] true) "sample"
      ∧ (sampleEnv [] true).GetProcAddress ((sampleEnv [] true).LoadLibrary "sample")
          "GetProxyDllInfo" = some (some sampleTable, some 77)
      ∧ (∀ iid cl res, Event.CoRegisterPSClsid iid cl res
          ∈ newEvents emptyWorld (registerCOMProxy (sampleEnv [] true) emptyWorld "sample").2 →
          res = S_OK))
    ∧ (∃ reg, (registerCOMProxy (sampleEnv [] true) emptyWorld "sample").1 = some reg
      ∧ reg.psClsidBackups = visitBackups 77 emptyWorld.psClsid (tableInterfaces sampleTable)
      ∧ reg.psClsidBackups.map (fun b => (b.iid, b.name)) = tableInterfaces sampleTable
      ∧ ∀ iid ∈ tableIids sampleTable,
          (registerCOMProxy (sampleEnv [] true) emptyWorld "sample").2.psClsid iid = some 77)
    ∧ visitBackups 77 emptyWorld.psClsid (tableInterfaces sampleTable)
        = [{ name := "A", iid := 1, clsid := CLSID_NULL }, { name := "B", iid := 2, clsid := CLSID_NULL }] :=
  have hSteps : ¬ HardStepFails (sampleEnv [] true) "sample" := fun hf =>
    absurd ((register_none_iff (sampleEnv [] true) emptyWorld "sample").2 hf) (by decide)
  have hRemaps : ∀ iid cl res, Event.CoRegisterPSClsid iid cl res
      ∈ newEvents emptyWorld (registerCOMProxy (sampleEnv [] true) emptyWorld "sample").2 →
      res = S_OK := by
    intro iid cl res hmem
    have hev : newEvents emptyWorld (registerCOMProxy (sampleEnv [] true) emptyWorld "sample").2
        = hardStepCalls "sample" 100 77 200 300 400 500
          ++ [.CoGetPSClsid 1 none, .CoRegisterPSClsid 1 77 S_OK,
              .CoGetPSClsid 2 none, .CoRegisterPSClsid 2 77 S_OK, .FreeLibrary 100] := by
      decide
    rw [hev] at hmem
    simp [hardStepCalls] at hmem
    rcases hmem with ⟨-, -, rfl⟩ | ⟨-, -, rfl⟩ <;> rfl
  ⟨⟨hSteps, rfl, hRemaps⟩,
    register_success_postcondition (sampleEnv [] true) emptyWorld "sample" sampleTable 77
      hSteps rfl hRemaps,
    by decide⟩

/-- C2 (as stated, refuted): in the spec scenario with the remap of A = 1
rejected and the remap of B = 2 accepted, `registerCOMProxy` returns a record,
both interfaces were visited, and the backup sequence has no entry for A. -/
theorem failed_remap_leaves_no_backup :
    ∃ reg, (registerCOMProxy (sampleEnv [1] true) emptyWorld "sample").1 = some reg
      ∧ Event.CoRegisterPSClsid 1 77 (-1)
          ∈ newEvents emptyWorld (registerCOMProxy (sampleEnv [1] true) emptyWorld "sample").2
      ∧ Event.CoRegisterPSClsid 2 77 S_OK
          ∈ newEvents emptyWorld (registerCOMProxy (sampleEnv [1] true) emptyWorld "sample").2
      ∧ ¬ (∀ iid ∈ tableIids sampleTable, iid ∈ reg.psClsidBackups.map (fun b => b.iid)) :=
  ⟨_, rfl, by decide, by decide, by decide⟩

/-- C2 (amended): when no hard step fails, every remap call for an interface A
of the table fails and every remap call for an interface B of the table
succeeds, `registerCOMProxy` still returns a record; the backup sequence has one
entry per remap call that returned `S_OK`, in call order, so although A was
visited it has an entry for B and none for A; the mapping of B is the class id
of the component and that of A is unchanged. -/
theorem register_partial_failure (env : Env) (w : World) (dllPath : String)
    (t : ProxyDescriptorTable) (c : CLSID) (A B : IID)
    (hSteps : ¬ HardStepFails env dllPath)
    (hInfo : env.GetProcAddress (env.LoadLibrary dllPath) "GetProxyDllInfo"
      = some (some t, some c))
    (hA : A ∈ tableIids t) (hB : B ∈ tableIids t)
    (hAfails : ∀ cl res, Event.CoRegisterPSClsid A cl res
      ∈ newEvents w (registerCOMProxy env w dllPath).2 → res ≠ S_OK)
    (hBok : ∀ cl res, Event.CoRegisterPSClsid B cl res
      ∈ newEvents w (registerCOMProxy env w dllPath).2 → res = S_OK) :
    ∃ reg, (registerCOMProxy env w dllPath).1 = some reg
      ∧ reg.psClsidBackups.map (fun b => b.iid)
          = (newEvents w (registerCOMProxy env w dllPath).2).filterMap Event.remappedIid
      ∧ (∃ res, Event.CoRegisterPSClsid A c res
          ∈ newEvents w (registerCOMProxy env w dllPath).2)
      ∧ B ∈ reg.psClsidBackups.map (fun b => b.iid)
      ∧ A ∉ reg.psClsidBackups.map (fun b => b.iid)
      ∧ (registerCOMProxy env w dllPath).2.psClsid B = some c
      ∧ (registerCOMProxy env w dllPath).2.psClsid A = w.psClsid A := by
  rcases hres : (registerCOMProxy env w dllPath).1 with _ | reg
  · exact absurd ((register_none_iff env w dllPath).1 hres) hSteps
  obtain ⟨h, a, k, p, ck, hb, hev, hps⟩ := registered_shape env w dllPath reg t c hres hInfo
  have hids : reg.psClsidBackups.map (fun b => b.iid)
      = (newEvents w (registerCOMProxy env w dllPath).2).filterMap Event.remappedIid := by
    rw [hev, hb]
    simp [List.filterMap_append, remappedIid_remapCalls, hardStepCalls, Event.remappedIid]
  have hBin : B ∈ reg.psClsidBackups.map (fun b => b.iid) := by
    obtain ⟨r, hr⟩ := remapCalls_visits env c (tableInterfaces t) B
      (w.after (hardStepCalls dllPath h c a k p ck)) hB
    have hmem : Event.CoRegisterPSClsid B c r ∈ newEvents w (registerCOMProxy env w dllPath).2 := by
      rw [hev]; simp [hr]
    have hrok := hBok c r hmem
    subst hrok
    rw [hids, mem_filterMap_remappedIid]
    exact ⟨c, hmem⟩
  have hAout : A ∉ reg.psClsidBackups.map (fun b => b.iid) := by
    rw [hids, mem_filterMap_remappedIid]
    rintro ⟨cl, hmem⟩
    exact hAfails cl S_OK hmem rfl
  have hAvisited : ∃ res, Event.CoRegisterPSClsid A c res
      ∈ newEvents w (registerCOMProxy env w dllPath).2 := by
    obtain ⟨r, hr⟩ := remapCalls_visits env c (tableInterfaces t) A
      (w.after (hardStepCalls dllPath h c a k p ck)) hA
    exact ⟨r, by rw [hev]; simp [hr]⟩
  refine ⟨reg, rfl, hids, hAvisited, hBin, hAout, ?_, ?_⟩
  · rw [hps, if_pos hBin]
  · rw [hps, if_neg hAout]

/-- C2 (amended), witness: the spec scenario with the remap of A rejected. -/
theorem register_partial_failure_witness :
    (¬ HardStepFails (sampleEnv [1] true) "sample"
      ∧ (sampleEnv [1] true).GetProcAddress ((sampleEnv [1] true).LoadLibrary "sample")
          "GetProxyDllInfo" = some (some sampleTable, some 77)
      ∧ 1 ∈ tableIids sampleTable ∧ 2 ∈ tableIids sampleTable
      ∧ (∀ cl res, Event.CoRegisterPSClsid 1 cl res
          ∈ newEvents emptyWorld (registerCOMProxy (sampleEnv [1] true) emptyWorld "sample").2 →
          res ≠ S_OK)
      ∧ (∀ cl res, Event.CoRegisterPSClsid 2 cl res
          ∈ newEvents emptyWorld (registerCOMProxy (sampleEnv [1] true) emptyWorld "sample").2 →
          res = S_OK))
    ∧ ∃ reg, (registerCOMProxy (sampleEnv [1] true) emptyWorld "sample").1 = some reg
      ∧ reg.psClsidBackups.map (fun b => b.iid)
          = (newEvents emptyWorld
              (registerCOMProxy (sampleEnv [1] true) emptyWorld "sample").2).filterMap
              Event.remappedIid
      ∧ (∃ res, Event.CoRegisterPSClsid 1 77 res
          ∈ newEvents emptyWorld (registerCOMProxy (sampleEnv [1] true) emptyWorld "sample").2)
      ∧ 2 ∈ reg.psClsidBackups.map (fun b => b.iid)
      ∧ 1 ∉ reg.psClsidBackups.map (fun b => b.iid)
      ∧ (registerCOMProxy (sampleEnv [1] true) emptyWorld "sample").2.psClsid 2 = some 77
      ∧ (registerCOMProxy (sampleEnv [1] true) emptyWorld "sample").2.psClsid 1
          = emptyWorld.psClsid 1 :=
  have hSteps : ¬ HardStepFails (sampleEnv [1] true) "sample" := fun hf =>
    absurd ((register_none_iff (sampleEnv [1] true) emptyWorld "sample").2 hf) (by decide)
  have hev : newEvents emptyWorld (registerCOMProxy (sampleEnv [1] true) emptyWorld "sample").2
      = hardStepCalls "sample" 100 77 200 300 400 500
        ++ [.CoGetPSClsid 1 none, .CoRegisterPSClsid 1 77 (-1),
            .CoGetPSClsid 2 none, .CoRegisterPSClsid 2 77 S_OK, .FreeLibrary 100] := by
    decide
  have hAfails : ∀ cl res, Event.CoRegisterPSClsid 1 cl res
      ∈ newEvents emptyWorld (registerCOMProxy (sampleEnv [1] true) emptyWorld "sample").2 →
      res ≠ S_OK := by
    intro cl res hmem
    rw [hev] at hmem
    simp [hardStepCalls] at hmem
    rw [hmem.2]
    decide
  have hBok : ∀ cl res, Event.CoRegisterPSClsid 2 cl res
      ∈ newEvents emptyWorld (registerCOMProxy (sampleEnv [1] true) emptyWorld "sample").2 →
      res = S_OK := by
    intro cl res hmem
    rw [hev] at hmem
    simp [hardStepCalls] at hmem
    exact hmem.2
  ⟨⟨hSteps, rfl, by decide, by decide, hAfails, hBok⟩,
    register_partial_failure (sampleEnv [1] true) emptyWorld "sample" sampleTable 77 1 2
      hSteps rfl (by decide) (by decide) hAfails hBok⟩

/-! ## Registration followed by unregistration -/

/-- C1: let `registerCOMProxy` return a record for a table whose interface ids
are pairwise distinct, whatever remap calls failed, and let `unregisterCOMProxy`
then run on that record with every restore call returning `S_OK`.  Then for
every interface captured in the backups of the record the mapping afterwards is
the value it had before the registration (the all-zero class id where none was
set), and every other interface of the table has the mapping it had before the
registration. -/
theorem register_unregister_roundtrip (env env2 : Env) (w : World) (dllPath : String)
    (t : ProxyDescriptorTable) (c : CLSID) (reg : COMProxyRegistration_t)
    (hInfo : env.GetProcAddress (env.LoadLibrary dllPath) "GetProxyDllInfo"
      = some (some t, some c))
    (hDistinct : (tableIids t).Nodup)
    (hReg : (registerCOMProxy env w dllPath).1 = some reg)
    (hRestores : ∀ iid cl res, Event.CoRegisterPSClsid iid cl res
      ∈ newEvents (registerCOMProxy env w dllPath).2
          (unregisterCOMProxy env2 (registerCOMProxy env w dllPath).2 (some reg)).2 →
      res = S_OK) :
    (∀ b ∈ reg.psClsidBackups,
        (unregisterCOMProxy env2 (registerCOMProxy env w dllPath).2 (some reg)).2.psClsid b.iid
          = some (psValue w b.iid)
        ∧ psValue (unregisterCOMProxy env2 (registerCOMProxy env w dllPath).2 (some reg)).2 b.iid
          = psValue w b.iid)
    ∧ (∀ iid ∈ tableIids t, iid ∉ reg.psClsidBackups.map (fun b => b.iid) →
        (unregisterCOMProxy env2 (registerCOMProxy env w dllPath).2 (some reg)).2.psClsid iid
          = w.psClsid iid) := by
  obtain ⟨h, a, k, p, ck, hb, -, hps⟩ := registered_shape env w dllPath reg t c hReg hInfo
  obtain ⟨res, hev, hun⟩ := unregister_some env2 (registerCOMProxy env w dllPath).2 reg
  have hnd : (reg.psClsidBackups.map (fun b => b.iid)).Nodup := by
    rw [hb]
    exact (remappedBackups_sublist env c _ _).nodup hDistinct
  have hok : ∀ r ∈ restoreResults env2 (registerCOMProxy env w dllPath).2 reg.psClsidBackups,
      r = S_OK := by
    apply restoreResults_of_calls
    intro i cl r hmem
    apply hRestores i cl r
    rw [hev]
    simp [hmem]
  have hcaptured : ∀ b ∈ reg.psClsidBackups,
      (unregisterCOMProxy env2 (registerCOMProxy env w dllPath).2 (some reg)).2.psClsid b.iid
        = some (psValue w b.iid) := by
    intro b hmem
    rw [hun, restoreBackups_restores env2 _ _ hok hnd b hmem]
    have hval := remappedBackups_clsid env c (tableInterfaces t)
      (w.after (hardStepCalls dllPath h c a k p ck)) hDistinct b (hb ▸ hmem)
    rw [hval]
    rfl
  refine ⟨fun b hmem => ⟨hcaptured b hmem, ?_⟩, ?_⟩
  · have := hcaptured b hmem
    simp only [psValue, this, Option.getD_some]
  · intro iid _ hnot
    rw [hun, restoreBackups_frame env2 _ iid _ hnot, hps, if_neg hnot]

/-- C1, witness: the spec scenario with the remap of A = 1 rejected, then the
unregistration with every call succeeding. -/
theorem register_unregister_roundtrip_witness :
    ((sampleEnv [1] true).GetProcAddress ((sampleEnv [1] true).LoadLibrary "sample")
          "GetProxyDllInfo" = some (some sampleTable, some 77)
      ∧ (tableIids sampleTable).Nodup
      ∧ (registerCOMProxy (sampleEnv [1] true) emptyWorld "sample").1
          = some { dllPath := "sample", classObjectRegistrationCookie := 500,
                   psClsidBackups := [{ name := "B", iid := 2, clsid := 0 }] }
      ∧ (∀ iid cl res, Event.CoRegisterPSClsid iid cl res
          ∈ newEvents (registerCOMProxy (sampleEnv [1] true) emptyWorld "sample").2
              (unregisterCOMProxy (sampleEnv [] true)
                (registerCOMProxy (sampleEnv [1] true) emptyWorld "sample").2
                (some { dllPath := "sample", classObjectRegistrationCookie := 500,
                        psClsidBackups := [{ name := "B", iid := 2, clsid := 0 }] })).2 →
          res = S_OK))
    ∧ ((∀ b ∈ [({ name := "B", iid := 2, clsid := 0 } : PSClsidBackup_t)],
          (unregisterCOMProxy (sampleEnv [] true)
              (registerCOMProxy (sampleEnv [1] true) emptyWorld "sample").2
              (some { dllPath := "sample", classObjectRegistrationCookie := 500,
                      psClsidBackups := [{ name := "B", iid := 2, clsid := 0 }] })).2.psClsid b.iid
            = some (psValue emptyWorld b.iid)
          ∧ psValue (unregisterCOMProxy (sampleEnv [] true)
              (registerCOMProxy (sampleEnv [1] true) emptyWorld "sample").2
              (some { dllPath := "sample", classObjectRegistrationCookie := 500,
                      psClsidBackups := [{ name := "B", iid := 2, clsid := 0 }] })).2 b.iid
            = psValue emptyWorld b.iid)
      ∧ (∀ iid ∈ tableIids sampleTable,
          iid ∉ [({ name := "B", iid := 2, clsid := 0 } : PSClsidBackup_t)].map (fun b => b.iid) →
          (unregisterCOMProxy (sampleEnv [] true)
              (registerCOMProxy (sampleEnv [1] true) emptyWorld "sample").2
              (some { dllPath := "sample", classObjectRegistrationCookie := 500,
                      psClsidBackups := [{ name := "B", iid := 2, clsid := 0 }] })).2.psClsid iid
            = emptyWorld.psClsid iid)) :=
  have hRestores : ∀ iid cl res, Event.CoRegisterPSClsid iid cl res
      ∈ newEvents (registerCOMProxy (sampleEnv [1] true) emptyWorld "sample").2
          (unregisterCOMProxy (sampleEnv [] true)
            (registerCOMProxy (sampleEnv [1] true) emptyWorld "sample").2
            (some { dllPath := "sample", classObjectRegistrationCookie := 500,
                    psClsidBackups := [{ name := "B", iid := 2, clsid := 0 }] })).2 →
      res = S_OK := by
    intro iid cl res hmem
    have hev : newEvents (registerCOMProxy (sampleEnv [1] true) emptyWorld "sample").2
        (unregisterCOMProxy (sampleEnv [] true)
          (registerCOMProxy (sampleEnv [1] true) emptyWorld "sample").2
          (some { dllPath := "sample", classObjectRegistrationCookie := 500,
                  psClsidBackups := [{ name := "B", iid := 2, clsid := 0 }] })).2
        = [.CoRegisterPSClsid 2 0 S_OK, .CoRevokeClassObject 500 S_OK,
           .CoFreeUnusedLibrariesEx] := by
      decide
    rw [hev] at hmem
    simp at hmem
    exact hmem.2.2
  ⟨⟨rfl, by decide, by decide, hRestores⟩,
    register_unregister_roundtrip (sampleEnv [1] true) (sampleEnv [] true) emptyWorld "sample"
      sampleTable 77 _ rfl (by decide) (by decide) hRestores⟩

end COMProxyRegistration
